import Mathlib

/-!
Verification of the KPI_Dashboard roll-up engine.

Shallow embedding of `src/lib/rollup.ts` (namespace `TS`) and
`src/js/rollup.js` (namespace `JS`).  JavaScript numbers are modelled as
rationals (every computation in the engine is a finite arithmetic
expression over the inputs); optional lists (`kpis?`, `tactics?`) are
modelled as `Option (List _)`, with `none` standing for a missing field.
-/

/-- `metricType` of a KPI: `"numeric"` or `"milestone"`. -/
inductive MetricType where
  | numeric
  | milestone
deriving DecidableEq, Repr

/-- A KPI record (`src/types/strategy.ts`): only the fields the engine reads. -/
structure KPI where
  metricType : MetricType
  target : ℚ
  current : ℚ
deriving DecidableEq, Repr

/-- A Tactic: optional list of KPIs. -/
structure Tactic where
  kpis : Option (List KPI)
deriving DecidableEq, Repr

/-- A Strategy: optional sub-tactic list and optional direct KPI list. -/
structure Strategy where
  tactics : Option (List Tactic)
  kpis : Option (List KPI)
deriving DecidableEq, Repr

/-- An Objective: required list of strategies. -/
structure Objective where
  strategies : List Strategy
deriving DecidableEq, Repr

/-- Status level: `"on-track" | "at-risk" | "off-track"`. -/
inductive StatusLevel where
  | onTrack
  | atRisk
  | offTrack
deriving DecidableEq, Repr

/-- `StatusWithPercent` composite result. -/
structure StatusWithPercent where
  percent : ℚ
  status : StatusLevel
  total : ℕ
deriving DecidableEq, Repr

namespace TS

/-- `const THRESHOLD_ON_TRACK = 0.70` (rollup.ts line 21). -/
def THRESHOLD_ON_TRACK : ℚ := 70/100

/-- `const THRESHOLD_AT_RISK = 0.40` (rollup.ts line 22). -/
def THRESHOLD_AT_RISK : ℚ := 40/100

/-- `kpiPct` (rollup.ts lines 32-41): numeric → `target === 0 ? 0 :
max(0, min(1, current/target))`; milestone → `current ? 1 : 0`
(truthiness of a number is being nonzero). -/
def kpiPct (k : KPI) : ℚ :=
  match k.metricType with
  | .numeric =>
      if k.target = 0 then 0
      else max 0 (min 1 (k.current / k.target))
  | .milestone => if k.current = 0 then 0 else 1

/-- `aggPct` (rollup.ts lines 49-52): `vals.length === 0 ? 0 :
vals.reduce((a,b) => a+b, 0) / vals.length`. -/
def aggPct (vals : List ℚ) : ℚ :=
  if vals.length = 0 then 0
  else (vals.foldl (· + ·) 0) / (vals.length : ℚ)

/-- `tacticPct` (rollup.ts lines 61-64): `!t.kpis || t.kpis.length === 0`
→ 0, else `aggPct (t.kpis.map kpiPct)`. -/
def tacticPct (t : Tactic) : ℚ :=
  match t.kpis with
  | none => 0
  | some ks => if ks.length = 0 then 0 else aggPct (ks.map kpiPct)

/-- `strategyPct` (rollup.ts lines 75-80): pooled
`[...directKPIs, ...tacticKPIs]` run through `aggPct`. -/
def strategyPct (s : Strategy) : ℚ :=
  let directKPIs := (s.kpis.getD []).map kpiPct
  let tacticKPIs := (s.tactics.getD []).flatMap (fun t => (t.kpis.getD []).map kpiPct)
  aggPct (directKPIs ++ tacticKPIs)

/-- `objectivePct` (rollup.ts lines 89-92). -/
def objectivePct (o : Objective) : ℚ :=
  if o.strategies.length = 0 then 0
  else aggPct (o.strategies.map strategyPct)

/-- `getStatusLevel` (rollup.ts lines 100-104). -/
def getStatusLevel (pct : ℚ) : StatusLevel :=
  if pct ≥ THRESHOLD_ON_TRACK then .onTrack
  else if pct ≥ THRESHOLD_AT_RISK then .atRisk
  else .offTrack

/-- `kpiStatus` (rollup.ts lines 112-119). -/
def kpiStatus (k : KPI) : StatusWithPercent :=
  let percent := kpiPct k
  { percent := percent, status := getStatusLevel percent, total := 1 }

/-- `tacticStatus` (rollup.ts lines 127-134). -/
def tacticStatus (t : Tactic) : StatusWithPercent :=
  let percent := tacticPct t
  { percent := percent, status := getStatusLevel percent,
    total := (t.kpis.getD []).length }

/-- `strategyStatus` (rollup.ts lines 142-155). -/
def strategyStatus (s : Strategy) : StatusWithPercent :=
  let percent := strategyPct s
  let directKPICount := (s.kpis.getD []).length
  let tacticKPICount :=
    (s.tactics.getD []).foldl (fun sum t => sum + (t.kpis.getD []).length) 0
  { percent := percent, status := getStatusLevel percent,
    total := directKPICount + tacticKPICount }

/-- `objectiveStatus` (rollup.ts lines 163-177). -/
def objectiveStatus (o : Objective) : StatusWithPercent :=
  let percent := objectivePct o
  let totalKPIs := o.strategies.foldl
    (fun sum s =>
      let directKPIs := (s.kpis.getD []).length
      let tacticKPIs :=
        (s.tactics.getD []).foldl (fun tSum t => tSum + (t.kpis.getD []).length) 0
      sum + directKPIs + tacticKPIs) 0
  { percent := percent, status := getStatusLevel percent, total := totalKPIs }

/-- `strategyKPICount` (rollup.ts lines 185-192). -/
def strategyKPICount (s : Strategy) : ℕ :=
  let directKPIs := (s.kpis.getD []).length
  let tacticKPIs :=
    (s.tactics.getD []).foldl (fun sum t => sum + (t.kpis.getD []).length) 0
  directKPIs + tacticKPIs

end TS

namespace JS

/-- `const THRESHOLD_ON_TRACK = 0.70` (rollup.js line 9). -/
def THRESHOLD_ON_TRACK : ℚ := 70/100

/-- `const THRESHOLD_AT_RISK = 0.40` (rollup.js line 10). -/
def THRESHOLD_AT_RISK : ℚ := 40/100

/-- `kpiPct` (rollup.js lines 16-22). -/
def kpiPct (kpi : KPI) : ℚ :=
  match kpi.metricType with
  | .numeric =>
      if kpi.target = 0 then 0
      else max 0 (min 1 (kpi.current / kpi.target))
  | .milestone => if kpi.current = 0 then 0 else 1

/-- `aggPct` (rollup.js lines 29-32). -/
def aggPct (vals : List ℚ) : ℚ :=
  if vals.length = 0 then 0
  else (vals.foldl (· + ·) 0) / (vals.length : ℚ)

/-- `tacticPct` (rollup.js lines 39-42). -/
def tacticPct (tactic : Tactic) : ℚ :=
  match tactic.kpis with
  | none => 0
  | some ks => if ks.length = 0 then 0 else aggPct (ks.map kpiPct)

/-- `strategyPct` (rollup.js lines 49-54): `strategy.kpis || []` and
`strategy.tactics || []` behave as `getD []` on the Option model. -/
def strategyPct (strategy : Strategy) : ℚ :=
  let directKPIs := (strategy.kpis.getD []).map kpiPct
  let tacticKPIs :=
    (strategy.tactics.getD []).flatMap (fun t => (t.kpis.getD []).map kpiPct)
  aggPct (directKPIs ++ tacticKPIs)

/-- `objectivePct` (rollup.js lines 61-64). -/
def objectivePct (objective : Objective) : ℚ :=
  if objective.strategies.length = 0 then 0
  else aggPct (objective.strategies.map strategyPct)

/-- `getStatusLevel` (rollup.js lines 71-75). -/
def getStatusLevel (pct : ℚ) : StatusLevel :=
  if pct ≥ THRESHOLD_ON_TRACK then .onTrack
  else if pct ≥ THRESHOLD_AT_RISK then .atRisk
  else .offTrack

/-- `strategyKPICount` (rollup.js lines 142-149). -/
def strategyKPICount (strategy : Strategy) : ℕ :=
  let directKPIs := (strategy.kpis.getD []).length
  let tacticKPIs :=
    (strategy.tactics.getD []).foldl (fun sum t => sum + (t.kpis.getD []).length) 0
  directKPIs + tacticKPIs

/-- `objectiveKPICount` (rollup.js lines 156-160). -/
def objectiveKPICount (objective : Objective) : ℕ :=
  objective.strategies.foldl (fun sum s => sum + strategyKPICount s) 0

end JS

/-! ## Spec-side definitions (from the spec's words, for refinement claims) -/

/-- Spec §4.2 `average`: arithmetic mean, empty sequence aggregates to 0. -/
def averageSpec (l : List ℚ) : ℚ :=
  if l = [] then 0 else l.sum / (l.length : ℚ)

/-- Spec §4.1 `kpiPercentage`: numeric → `current / target` clamped to
[0, 1] with `target == 0` giving 0; milestone → 1 iff `current` nonzero,
`target` ignored. -/
def kpiPercentageSpec (k : KPI) : ℚ :=
  match k.metricType with
  | .numeric =>
      if k.target = 0 then 0
      else min 1 (max 0 (k.current / k.target))
  | .milestone => if k.current ≠ 0 then 1 else 0

/-- Leaf KPIs of a Tactic (spec §3: a tactic holds its KPIs directly). -/
def tacticLeafKPIs (t : Tactic) : List KPI := t.kpis.getD []

/-- Leaf KPIs reachable from a Strategy: direct KPIs plus every KPI of
every one of its tactics (spec §4.3 pooled set). -/
def strategyLeafKPIs (s : Strategy) : List KPI :=
  s.kpis.getD [] ++ (s.tactics.getD []).flatMap tacticLeafKPIs

/-- Leaf KPIs reachable from an Objective. -/
def objectiveLeafKPIs (o : Objective) : List KPI :=
  o.strategies.flatMap strategyLeafKPIs

/-- The rejected alternative named by the spec: the average of the
per-tactic averages together with the strategy's own direct-KPI average. -/
def avgOfAveragesSpec (s : Strategy) : ℚ :=
  averageSpec (averageSpec ((s.kpis.getD []).map TS.kpiPct)
    :: (s.tactics.getD []).map TS.tacticPct)

/-! ## Helper lemmas -/

theorem aggPct_eq_averageSpec (l : List ℚ) : TS.aggPct l = averageSpec l := by
  unfold TS.aggPct averageSpec
  rcases l with _ | ⟨x, xs⟩
  · rfl
  · simp [List.sum_eq_foldl]

theorem averageSpec_nonneg {l : List ℚ} (h : ∀ x ∈ l, 0 ≤ x) :
    0 ≤ averageSpec l := by
  unfold averageSpec
  split
  · exact le_refl 0
  · exact div_nonneg (List.sum_nonneg h) (by positivity)

theorem averageSpec_le_one {l : List ℚ} (h : ∀ x ∈ l, x ≤ 1) :
    averageSpec l ≤ 1 := by
  unfold averageSpec
  split
  · exact zero_le_one
  · rename_i hne
    have hlen : 0 < (l.length : ℚ) := by
      have : l.length ≠ 0 := fun h0 => hne (List.length_eq_zero.mp h0)
      positivity
    rw [div_le_one hlen]
    have := List.sum_le_card_nsmul l 1 h
    simpa using this

theorem kpiPct_nonneg (k : KPI) : 0 ≤ TS.kpiPct k := by
  unfold TS.kpiPct
  rcases k with ⟨mt, tgt, cur⟩
  cases mt <;> simp only
  · split
    · exact le_refl 0
    · exact le_max_left 0 _
  · split
    · exact le_refl 0
    · exact zero_le_one

theorem kpiPct_le_one (k : KPI) : TS.kpiPct k ≤ 1 := by
  unfold TS.kpiPct
  rcases k with ⟨mt, tgt, cur⟩
  cases mt <;> simp only
  · split
    · exact zero_le_one
    · exact max_le zero_le_one (min_le_left 1 _)
  · split
    · exact zero_le_one
    · exact le_refl 1

theorem strategyPct_eq_pooled (s : Strategy) :
    TS.strategyPct s = averageSpec ((strategyLeafKPIs s).map TS.kpiPct) := by
  unfold TS.strategyPct strategyLeafKPIs tacticLeafKPIs
  rw [aggPct_eq_averageSpec]
  simp [List.map_append, List.map_flatMap, Function.comp]

/-! ## Claims -/

/-- C1: for every Strategy, `strategyPct` is the single flat arithmetic
mean of `kpiPct` over the pooled list of all leaf KPIs reachable from the
strategy (direct KPIs plus every KPI of every tactic); and it is not the
average-of-averages: on a concrete strategy with one direct KPI and two
tactics of unequal KPI counts (1 and 2) the two computations differ. -/
theorem C1_strategyPct_pooled_mean :
    (∀ s : Strategy,
      TS.strategyPct s = averageSpec ((strategyLeafKPIs s).map TS.kpiPct)) ∧
    (let s : Strategy :=
      { tactics := some [⟨some [⟨.milestone, 0, 0⟩]⟩,
                         ⟨some [⟨.milestone, 0, 1⟩, ⟨.milestone, 0, 1⟩]⟩],
        kpis := some [⟨.milestone, 0, 1⟩] }
     TS.strategyPct s ≠ avgOfAveragesSpec s) := by
  refine ⟨strategyPct_eq_pooled, ?_⟩
  norm_num [TS.strategyPct, TS.aggPct, TS.kpiPct, TS.tacticPct,
    avgOfAveragesSpec, averageSpec]
  rw [if_neg (by simp)]
  norm_num

/-- C2: `kpiPct` implements the spec's per-metric-type normalization
rule: numeric with zero target → 0, numeric with nonzero target →
`current / target` clamped to [0, 1], milestone → 1 iff `current` is
nonzero with `target` ignored. -/
theorem C2_kpiPct_normalization :
    ∀ k : KPI, TS.kpiPct k = kpiPercentageSpec k := by
  intro k
  rcases k with ⟨mt, tgt, cur⟩
  cases mt
  · show (if tgt = 0 then 0 else max 0 (min 1 (cur / tgt)))
      = (if tgt = 0 then 0 else min 1 (max 0 (cur / tgt)))
    split
    · rfl
    · simp only [min_def, max_def]
      split_ifs <;> linarith
  · show (if cur = 0 then (0:ℚ) else 1) = (if cur ≠ 0 then 1 else 0)
    split_ifs <;> simp_all

/-- C3 counterexample: the claim quantifies over every real target, but
for the numeric KPI with `target = -10` and negative `current = -5` the
code computes `max(0, min(1, (-5)/(-10))) = 1/2 ≠ 0`. -/
theorem C3_counterexample :
    ((-5 : ℚ) < 0) ∧
    TS.kpiPct { metricType := .numeric, target := -10, current := -5 } ≠ 0 := by
  constructor
  · norm_num
  · show max 0 (min 1 ((-5 : ℚ) / (-10))) ≠ 0
    norm_num [min_def, max_def]

/-- C3 (amended): for every numeric-type KPI whose `current` is negative,
`kpiPct` returns 0 — negative values are clamped to floor 0, no error —
for every nonnegative target (with a negative target, `current / target`
is positive and survives the clamp). -/
theorem C3_negative_current_floor :
    ∀ k : KPI, k.metricType = .numeric → k.current < 0 → 0 ≤ k.target →
      TS.kpiPct k = 0 := by
  intro k hmt hc ht
  rcases k with ⟨mt, tgt, cur⟩
  cases mt
  · show (if tgt = 0 then 0 else max 0 (min 1 (cur / tgt))) = 0
    rcases eq_or_lt_of_le ht with h0 | hpos
    · rw [if_pos h0.symm]
    · rw [if_neg (ne_of_gt hpos)]
      have hneg : cur / tgt < 0 := div_neg_of_neg_of_pos hc hpos
      rw [min_eq_right (by linarith), max_eq_left (by linarith)]
  · exact absurd hmt (by simp)

/-- C3 witness: the amended theorem applied at target 100, current -10. -/
theorem C3_negative_current_floor_witness :
    TS.kpiPct { metricType := .numeric, target := 100, current := -10 } = 0 :=
  C3_negative_current_floor _ rfl (by norm_num) (by norm_num)

/-- C4: `objectivePct` is the arithmetic mean of `strategyPct` over the
objective's strategy list (0 when the list is empty), one pre-aggregated
value per strategy — and on a concrete objective with strategies of
unequal KPI counts it differs from the pooled leaf-KPI average. -/
theorem C4_objectivePct_mean_of_strategies :
    (∀ o : Objective,
      TS.objectivePct o = averageSpec (o.strategies.map TS.strategyPct)) ∧
    TS.objectivePct { strategies := [] } = 0 ∧
    (let o : Objective := { strategies :=
        [ { tactics := none, kpis := some [⟨.milestone, 0, 0⟩] },
          { tactics := none,
            kpis := some [⟨.milestone, 0, 1⟩, ⟨.milestone, 0, 1⟩] } ] }
     TS.objectivePct o ≠ averageSpec ((objectiveLeafKPIs o).map TS.kpiPct)) := by
  refine ⟨?_, rfl, ?_⟩
  · intro o
    unfold TS.objectivePct
    split
    · rename_i h
      rw [List.length_eq_zero.mp h]
      rfl
    · rw [aggPct_eq_averageSpec]
  · norm_num [TS.objectivePct, TS.strategyPct, TS.aggPct, TS.kpiPct,
      objectiveLeafKPIs, strategyLeafKPIs, tacticLeafKPIs, averageSpec]
    rw [if_neg (by simp)]
    norm_num

/-- C5: `getStatusLevel` maps p ≥ 0.70 to on-track, 0.40 ≤ p < 0.70 to
at-risk and p < 0.40 to off-track, with ≥ at the upper boundaries, and
takes the quoted values at 0.70, 0.69, 0.40, 0.39 and 0.0. -/
theorem C5_getStatusLevel_bands :
    (∀ p : ℚ,
      (70/100 ≤ p → TS.getStatusLevel p = .onTrack) ∧
      (40/100 ≤ p → p < 70/100 → TS.getStatusLevel p = .atRisk) ∧
      (p < 40/100 → TS.getStatusLevel p = .offTrack)) ∧
    TS.getStatusLevel (70/100) = .onTrack ∧
    TS.getStatusLevel (69/100) = .atRisk ∧
    TS.getStatusLevel (40/100) = .atRisk ∧
    TS.getStatusLevel (39/100) = .offTrack ∧
    TS.getStatusLevel 0 = .offTrack := by
  have hmain : ∀ p : ℚ,
      (70/100 ≤ p → TS.getStatusLevel p = .onTrack) ∧
      (40/100 ≤ p → p < 70/100 → TS.getStatusLevel p = .atRisk) ∧
      (p < 40/100 → TS.getStatusLevel p = .offTrack) := by
    intro p
    unfold TS.getStatusLevel TS.THRESHOLD_ON_TRACK TS.THRESHOLD_AT_RISK
    refine ⟨fun h => ?_, fun h1 h2 => ?_, fun h => ?_⟩
    · rw [if_pos h]
    · rw [if_neg (by linarith), if_pos h1]
    · rw [if_neg (by linarith), if_neg (by linarith)]
  refine ⟨hmain, (hmain _).1 (by norm_num),
    (hmain _).2.1 (by norm_num) (by norm_num),
    (hmain _).2.1 (by norm_num) (by norm_num),
    (hmain _).2.2 (by norm_num), (hmain _).2.2 (by norm_num)⟩

/-- C5 witness: the band implications discharged at 1, 1/2 and 1/10. -/
theorem C5_getStatusLevel_bands_witness :
    TS.getStatusLevel 1 = .onTrack ∧ TS.getStatusLevel (1/2) = .atRisk ∧
    TS.getStatusLevel (1/10) = .offTrack :=
  ⟨(C5_getStatusLevel_bands.1 1).1 (by norm_num),
   (C5_getStatusLevel_bands.1 (1/2)).2.1 (by norm_num) (by norm_num),
   (C5_getStatusLevel_bands.1 (1/10)).2.2 (by norm_num)⟩

theorem tacticPct_nonneg_le_one (t : Tactic) :
    0 ≤ TS.tacticPct t ∧ TS.tacticPct t ≤ 1 := by
  unfold TS.tacticPct
  rcases t with ⟨_ | ks⟩
  · exact ⟨le_refl 0, zero_le_one⟩
  · simp only
    split
    · exact ⟨le_refl 0, zero_le_one⟩
    · rw [aggPct_eq_averageSpec]
      constructor
      · refine averageSpec_nonneg fun x hx => ?_
        rcases List.mem_map.mp hx with ⟨k, _, rfl⟩
        exact kpiPct_nonneg k
      · refine averageSpec_le_one fun x hx => ?_
        rcases List.mem_map.mp hx with ⟨k, _, rfl⟩
        exact kpiPct_le_one k

theorem strategyPct_nonneg_le_one (s : Strategy) :
    0 ≤ TS.strategyPct s ∧ TS.strategyPct s ≤ 1 := by
  rw [strategyPct_eq_pooled]
  constructor
  · refine averageSpec_nonneg fun x hx => ?_
    rcases List.mem_map.mp hx with ⟨k, _, rfl⟩
    exact kpiPct_nonneg k
  · refine averageSpec_le_one fun x hx => ?_
    rcases List.mem_map.mp hx with ⟨k, _, rfl⟩
    exact kpiPct_le_one k

theorem objectivePct_nonneg_le_one (o : Objective) :
    0 ≤ TS.objectivePct o ∧ TS.objectivePct o ≤ 1 := by
  unfold TS.objectivePct
  split
  · exact ⟨le_refl 0, zero_le_one⟩
  · rw [aggPct_eq_averageSpec]
    constructor
    · refine averageSpec_nonneg fun x hx => ?_
      rcases List.mem_map.mp hx with ⟨st, _, rfl⟩
      exact (strategyPct_nonneg_le_one st).1
    · refine averageSpec_le_one fun x hx => ?_
      rcases List.mem_map.mp hx with ⟨st, _, rfl⟩
      exact (strategyPct_nonneg_le_one st).2

/-- C6: the empty-input policy yields 0 at every level — `aggPct [] = 0`,
a Tactic with no KPIs, a Strategy with no direct and no tactic KPIs and
an Objective with no strategies all roll up to 0 — and a missing optional
list is treated exactly as an empty list. -/
theorem C6_empty_input_policy :
    TS.aggPct [] = 0 ∧
    (∀ t : Tactic, t.kpis.getD [] = [] → TS.tacticPct t = 0) ∧
    (∀ s : Strategy, s.kpis.getD [] = [] →
      (∀ t ∈ s.tactics.getD [], t.kpis.getD [] = []) →
      TS.strategyPct s = 0) ∧
    (∀ o : Objective, o.strategies = [] → TS.objectivePct o = 0) ∧
    TS.tacticPct ⟨none⟩ = TS.tacticPct ⟨some []⟩ ∧
    (∀ kp : Option (List KPI),
      TS.strategyPct ⟨none, kp⟩ = TS.strategyPct ⟨some [], kp⟩) ∧
    (∀ tc : Option (List Tactic),
      TS.strategyPct ⟨tc, none⟩ = TS.strategyPct ⟨tc, some []⟩) := by
  refine ⟨rfl, ?_, ?_, ?_, rfl, fun kp => rfl, fun tc => rfl⟩
  · intro t ht
    rcases t with ⟨_ | ks⟩
    · rfl
    · simp only [Option.getD_some] at ht
      subst ht
      rfl
  · intro s hd htac
    unfold TS.strategyPct
    have h2 : (s.tactics.getD []).flatMap (fun t => (t.kpis.getD []).map TS.kpiPct)
        = [] := by
      rw [List.flatMap_eq_nil_iff]
      intro t ht
      rw [htac t ht]
      rfl
    rw [hd, h2]
    rfl
  · intro o ho
    unfold TS.objectivePct
    rw [ho]
    rfl

/-- C6 witness: the conjuncts with hypotheses applied to a concrete empty
tactic, a strategy whose only tactic has an empty KPI list, and an
objective with no strategies. -/
theorem C6_empty_input_policy_witness :
    TS.tacticPct ⟨some []⟩ = 0 ∧
    TS.strategyPct ⟨some [⟨some []⟩], none⟩ = 0 ∧
    TS.objectivePct ⟨[]⟩ = 0 :=
  ⟨C6_empty_input_policy.2.1 ⟨some []⟩ rfl,
   C6_empty_input_policy.2.2.1 ⟨some [⟨some []⟩], none⟩ rfl
     (by intro t ht; simp only [Option.getD_some, List.mem_singleton] at ht;
         subst ht; rfl),
   C6_empty_input_policy.2.2.2.1 ⟨[]⟩ rfl⟩

/-- C7: every computed percentage — `kpiPct`, `tacticPct`, `strategyPct`,
`objectivePct` — lies in the closed interval [0, 1] on every well-typed
input tree. -/
theorem C7_percentages_in_unit_interval :
    (∀ k : KPI, TS.kpiPct k ∈ Set.Icc (0:ℚ) 1) ∧
    (∀ t : Tactic, TS.tacticPct t ∈ Set.Icc (0:ℚ) 1) ∧
    (∀ s : Strategy, TS.strategyPct s ∈ Set.Icc (0:ℚ) 1) ∧
    (∀ o : Objective, TS.objectivePct o ∈ Set.Icc (0:ℚ) 1) :=
  ⟨fun k => Set.mem_Icc.mpr ⟨kpiPct_nonneg k, kpiPct_le_one k⟩,
   fun t => Set.mem_Icc.mpr (tacticPct_nonneg_le_one t),
   fun s => Set.mem_Icc.mpr (strategyPct_nonneg_le_one s),
   fun o => Set.mem_Icc.mpr (objectivePct_nonneg_le_one o)⟩

/-- C8: for a numeric KPI with fixed target > 0, `kpiPct` is monotone
non-decreasing in `current`, and both values lie in [0, 1]. -/
theorem C8_numeric_kpiPct_monotone :
    ∀ (t c1 c2 : ℚ), 0 < t → c1 ≤ c2 →
      TS.kpiPct ⟨.numeric, t, c1⟩ ≤ TS.kpiPct ⟨.numeric, t, c2⟩ ∧
      TS.kpiPct ⟨.numeric, t, c1⟩ ∈ Set.Icc (0:ℚ) 1 ∧
      TS.kpiPct ⟨.numeric, t, c2⟩ ∈ Set.Icc (0:ℚ) 1 := by
  intro t c1 c2 ht hc
  refine ⟨?_, Set.mem_Icc.mpr ⟨kpiPct_nonneg _, kpiPct_le_one _⟩,
    Set.mem_Icc.mpr ⟨kpiPct_nonneg _, kpiPct_le_one _⟩⟩
  show (if t = 0 then 0 else max 0 (min 1 (c1 / t)))
    ≤ (if t = 0 then (0:ℚ) else max 0 (min 1 (c2 / t)))
  rw [if_neg (ne_of_gt ht), if_neg (ne_of_gt ht)]
  gcongr

/-- C8 witness: monotonicity at target 100, currents 10 ≤ 50. -/
theorem C8_numeric_kpiPct_monotone_witness :
    TS.kpiPct ⟨.numeric, 100, 10⟩ ≤ TS.kpiPct ⟨.numeric, 100, 50⟩ ∧
    TS.kpiPct ⟨.numeric, 100, 10⟩ ∈ Set.Icc (0:ℚ) 1 ∧
    TS.kpiPct ⟨.numeric, 100, 50⟩ ∈ Set.Icc (0:ℚ) 1 :=
  C8_numeric_kpiPct_monotone 100 10 50 (by norm_num) (by norm_num)

theorem foldl_tactic_count (ts : List Tactic) (n : ℕ) :
    ts.foldl (fun sum t => sum + (t.kpis.getD []).length) n
      = n + (ts.flatMap tacticLeafKPIs).length := by
  induction ts generalizing n with
  | nil => simp
  | cons t ts ih =>
      rw [List.foldl_cons, ih, List.flatMap_cons, List.length_append]
      unfold tacticLeafKPIs
      omega

theorem foldl_strategy_count (ss : List Strategy) (n : ℕ) :
    ss.foldl
      (fun sum s =>
        sum + (s.kpis.getD []).length
          + (s.tactics.getD []).foldl
              (fun tSum t => tSum + (t.kpis.getD []).length) 0) n
      = n + (ss.flatMap strategyLeafKPIs).length := by
  induction ss generalizing n with
  | nil => simp
  | cons s ss ih =>
      rw [List.foldl_cons, ih, List.flatMap_cons, List.length_append]
      unfold strategyLeafKPIs
      rw [foldl_tactic_count, List.length_append]
      omega

/-- C9: each status-with-count `total` field equals the number of leaf
KPIs reachable from the entity through the containment tree: 1 for a KPI,
the KPI-list length for a Tactic, direct plus nested counts for a
Strategy, and the sum over strategies for an Objective. -/
theorem C9_total_is_leaf_count :
    (∀ k : KPI, (TS.kpiStatus k).total = 1) ∧
    (∀ t : Tactic, (TS.tacticStatus t).total = (tacticLeafKPIs t).length) ∧
    (∀ s : Strategy,
      (TS.strategyStatus s).total = (strategyLeafKPIs s).length) ∧
    (∀ o : Objective,
      (TS.objectiveStatus o).total = (objectiveLeafKPIs o).length) := by
  refine ⟨fun k => rfl, fun t => rfl, ?_, ?_⟩
  · intro s
    show (s.kpis.getD []).length
        + (s.tactics.getD []).foldl
            (fun sum t => sum + (t.kpis.getD []).length) 0
      = (strategyLeafKPIs s).length
    rw [foldl_tactic_count]
    unfold strategyLeafKPIs
    rw [List.length_append]
    omega
  · intro o
    show o.strategies.foldl
        (fun sum s =>
          sum + (s.kpis.getD []).length
            + (s.tactics.getD []).foldl
                (fun tSum t => tSum + (t.kpis.getD []).length) 0) 0
      = (objectiveLeafKPIs o).length
    rw [foldl_strategy_count]
    unfold objectiveLeafKPIs
    omega

/-- C10: the server-side TypeScript and client-side JavaScript roll-up
implementations are extensionally equal on every input, for each of the
seven paired functions. -/
theorem C10_ts_js_extensionally_equal :
    (∀ k : KPI, TS.kpiPct k = JS.kpiPct k) ∧
    (∀ v : List ℚ, TS.aggPct v = JS.aggPct v) ∧
    (∀ t : Tactic, TS.tacticPct t = JS.tacticPct t) ∧
    (∀ s : Strategy, TS.strategyPct s = JS.strategyPct s) ∧
    (∀ o : Objective, TS.objectivePct o = JS.objectivePct o) ∧
    (∀ p : ℚ, TS.getStatusLevel p = JS.getStatusLevel p) ∧
    (∀ s : Strategy, TS.strategyKPICount s = JS.strategyKPICount s) :=
  ⟨fun _ => rfl, fun _ => rfl, fun _ => rfl, fun _ => rfl, fun _ => rfl,
   fun _ => rfl, fun _ => rfl⟩
